import Mathlib

/-!
Verification of the merag document-ingestion pipeline specification.

Each Python function that a claim touches is shallowly embedded as a Lean
definition.  External collaborators (the dots.ocr model, Tesseract, the
vector store, the filesystem, `json.loads`, the text splitter, `md5`) are
modelled as explicit parameters: an `Except` value stands for a call that
either returns or raises, and filesystem side effects are recorded as an
explicit list of operations/events so that claims about them can be stated.
Python dict results become structures with the same field names; a Python
`None` becomes `Option.none`; Python sets are modelled as duplicate-free
lists built by insert-if-absent, so that membership statements coincide.
-/

namespace Merag

/-! ## JSON values (the shape of `json.loads` output) -/

/-- A JSON value, as produced by Python's `json.loads`. -/
inductive Json where
  | null
  | bool (b : Bool)
  | num (n : Int)
  | str (s : String)
  | arr (elements : List Json)
  | obj (fields : List (String × Json))

/-! ## OCR service (src/backend/services/ocr_service.py) -/

/-- The dict returned by `DotsOCRService.extract_text_from_image`
(fields `text`, `parsed`, `task_type`, `success`). -/
structure DotsResult where
  text : String
  parsed : Option Json
  task_type : String
  success : Bool

/-- The tail of `DotsOCRService.extract_text_from_image` (lines 197-221):
given the decoded model output, attempt `json.loads` for structured task
types and build the result dict.  `parseJson` models `json.loads`, with
`none` standing for a raised `JSONDecodeError`. -/
def dotsParseOutput (parseJson : String → Option Json)
    (output_text task_type : String) : DotsResult :=
  if task_type == "full" || task_type == "layout_only" then
    match parseJson output_text with
    | some p => ⟨output_text, some p, task_type, true⟩
    | none => ⟨output_text, none, task_type, true⟩
  else
    ⟨output_text, none, task_type, true⟩

/-- The dict returned by `OCRService.extract_text_from_image`. -/
structure OCRResult where
  text : String
  method : String
  success : Bool
  error : Option String
  parsed : Option Json
  task_type : String

/-- Environment for one `OCRService.extract_text_from_image` call: the
availability of each engine and what each engine's call would do
(`Except.error` models a raised exception). -/
structure OCREnv where
  dots_available : Bool
  dots_result : Except String DotsResult
  tesseract_available : Bool
  tesseract_result : Except String String

/-- Python string interpolation of an `Option String`:
`f"{x}"` renders `None` as the string `"None"`. -/
def pyOptionStr : Option String → String
  | none => "None"
  | some s => s

/-- The Tesseract-fallback tail of `OCRService.extract_text_from_image`
(lines 479-494), applied to the result accumulated so far. -/
def tesseractFallback (env : OCREnv) (use_fallback : Bool)
    (r : OCRResult) : OCRResult :=
  if use_fallback && env.tesseract_available then
    match env.tesseract_result with
    | .ok t => { r with text := t, method := "tesseract", success := true, error := none }
    | .error e =>
        { r with error := some ("Both OCR methods failed. Dots: "
            ++ pyOptionStr r.error ++ ", Tesseract: " ++ e) }
  else r

/-- `OCRService.extract_text_from_image` (lines 434-494): try dots.ocr
first when available, recording its exception in `error`; then fall back
to Tesseract when enabled and available. -/
def extract_text_from_image (env : OCREnv) (use_fallback : Bool)
    (task_type : String) : OCRResult :=
  let result : OCRResult := ⟨"", "", false, none, none, task_type⟩
  if env.dots_available then
    match env.dots_result with
    | .ok d =>
        { result with text := d.text, method := "dots.ocr", success := true,
                      parsed := d.parsed, task_type := d.task_type }
    | .error e => tesseractFallback env use_fallback { result with error := some e }
  else
    tesseractFallback env use_fallback result

/-! ## PDF page loop of `DotsOCRService.extract_text_from_pdf` (lines 254-295) -/

/-- A filesystem event of the per-page PDF loop: saving the rasterized page
image to its temp path, or attempting `os.remove` on it. -/
inductive FsEvent where
  | save_temp (path : String)
  | remove_temp (path : String)
deriving DecidableEq

/-- One per-page result entry appended to `all_results`. -/
structure PageResult where
  page_num : Nat
  page_total : Nat
  success : Bool
  error : Option String
  text : String
  parsed : Option Json

/-- One iteration of the page loop in `DotsOCRService.extract_text_from_pdf`:
rasterize the page to `temp_path`, OCR it (`ocr` models the
`extract_text_from_image` call; `Except.error` a raised exception), and on
success attempt to remove the temp file.  A raised OCR exception is caught
by the per-page handler, which appends an error entry — control never
reaches the `os.remove` call in that case. -/
def process_pdf_page (page_num total_pages : Nat) (temp_path : String)
    (ocr : Except String DotsResult) : PageResult × List FsEvent :=
  match ocr with
  | .ok r =>
      (⟨page_num + 1, total_pages, r.success, none, r.text, r.parsed⟩,
        [.save_temp temp_path, .remove_temp temp_path])
  | .error e =>
      (⟨page_num + 1, total_pages, false, some e, "", none⟩,
        [.save_temp temp_path])

/-! ## Document processor (src/backend/services/document_processor.py) -/

/-- One element of an extractor's `content` list.  Extractors emit dicts
with a `content` key and, for the image extractor, a `type` key;
`DocumentProcessor.process_document` reads the type via
`content_item.get("type", "text")`, so the type is optional here. -/
structure ContentItem where
  ctype : Option String
  content : String
deriving DecidableEq

/-- The `ExtractionResult` dict returned by every format extractor:
`{success, content, error}` (metadata is not read by the claims modelled
here). -/
structure ExtractionResult where
  success : Bool
  content : List ContentItem
  error : Option String
deriving DecidableEq

/-- The per-item contribution to `full_text` in
`DocumentProcessor.process_document` (lines 519-537): tables and formulas
are wrapped in bracketed Hebrew markers, everything else is followed by a
blank line. -/
def item_text (ci : ContentItem) : String :=
  match ci.ctype.getD "text" with
  | "table" => "\n[טבלה]\n" ++ ci.content ++ "\n[/טבלה]\n\n"
  | "formula" => "\n[נוסחה]\n" ++ ci.content ++ "\n[/נוסחה]\n\n"
  | _ => ci.content ++ "\n\n"

/-- The `full_text` accumulation loop of `process_document`. -/
def build_full_text (content : List ContentItem) : String :=
  content.foldl (fun acc ci => acc ++ item_text ci) ""

/-- The dict returned by `DocumentProcessor.process_document`
(`metadata` omitted: no modelled claim reads it). -/
structure ProcResult where
  success : Bool
  error : Option String
  documents : List String
deriving DecidableEq

/-- A file as `process_document` observes it: its path string, whether
`file_path.exists()` holds, its `stat().st_size` in bytes, and its
`file_path.suffix` (raw, case preserved). -/
structure FileInfo where
  path : String
  on_disk : Bool
  size_bytes : Nat
  suffix : String
deriving DecidableEq

/-- The `type_mapping` dict of `DocumentProcessor._get_file_type`
(lines 423-437). -/
def type_mapping : String → Option String
  | ".pdf" => some "pdf"
  | ".docx" => some "docx"
  | ".doc" => some "doc"
  | ".txt" => some "txt"
  | ".png" => some "image"
  | ".jpg" => some "image"
  | ".jpeg" => some "image"
  | ".tiff" => some "image"
  | ".bmp" => some "image"
  | ".mp3" => some "audio"
  | ".wav" => some "audio"
  | ".m4a" => some "audio"
  | ".flac" => some "audio"
  | _ => none

/-- Python's `str.lower()` on an extension string, modelled character by
character. -/
def py_lower (s : String) : String :=
  ⟨s.data.map Char.toLower⟩

/-- `DocumentProcessor._get_file_type`: lower-case the extension and look
it up, defaulting to `"unknown"`. -/
def get_file_type (suffix : String) : String :=
  (type_mapping (py_lower suffix)).getD "unknown"

/-- Whether one character list is a leading segment of another. -/
def chars_lead : List Char → List Char → Bool
  | [], _ => true
  | _ :: _, [] => false
  | a :: as, b :: bs => a == b && chars_lead as bs

/-- Whether the string `s` starts with `pre`. -/
def str_starts_with (pre s : String) : Bool :=
  chars_lead pre.data s.data

/-- `file_path.stat().st_size / (1024 * 1024)`, the file size in MB
(modelled exactly as a rational instead of a Python float). -/
def file_size_mb (size_bytes : Nat) : ℚ :=
  (size_bytes : ℚ) / (1024 * 1024)

/-- `DocumentProcessor.process_document` (lines 466-582).  `splitter`
models the LangChain text splitter (external collaborator), `fmt` models
Python's `{x:.1f}` float formatting, and `extraction` models the
dispatched extractor call (`Except.error` a raised exception, caught by
the outer handler).  The second component records whether an extractor
was invoked: the existence / size / type gates all return before the
dispatch, every other path runs the extractor. -/
def process_document (max_file_size_mb : Nat) (splitter : String → List String)
    (fmt : ℚ → String) (f : FileInfo)
    (extraction : Except String ExtractionResult) : ProcResult × Bool :=
  if !f.on_disk then
    (⟨false, some ("File not found: " ++ f.path), []⟩, false)
  else if file_size_mb f.size_bytes > (max_file_size_mb : ℚ) then
    (⟨false, some ("File too large: " ++ fmt (file_size_mb f.size_bytes)
        ++ "MB (max: " ++ toString max_file_size_mb ++ "MB)"), []⟩, false)
  else if get_file_type f.suffix = "unknown" then
    (⟨false, some ("Unsupported file type: " ++ f.suffix), []⟩, false)
  else
    match extraction with
    | .error e => (⟨false, some e, []⟩, true)
    | .ok er =>
        if !er.success then (⟨false, er.error, []⟩, true)
        else (⟨true, none, splitter (build_full_text er.content)⟩, true)

/-- What `asyncio.gather(..., return_exceptions=True)` hands back for one
file in `process_multiple_documents`: either a captured exception or the
file's `process_document` result dict. -/
inductive FileOutcome where
  | exn (e : String)
  | res (r : ProcResult)
deriving DecidableEq

/-- A file is invalid when its task raised or its result has
`success = False`. -/
def FileOutcome.is_failure : FileOutcome → Bool
  | .exn _ => true
  | .res r => !r.success

/-- One entry of `results["successful"]`. -/
structure SuccessEntry where
  file_path : String
  documents : List String
deriving DecidableEq

/-- One entry of `results["failed"]`. -/
structure FailedEntry where
  file_path : String
  error : Option String
deriving DecidableEq

/-- The `BatchReport` dict built by `process_multiple_documents`
(`memory_usage`, an external psutil snapshot, omitted). -/
structure BatchReport where
  successful : List SuccessEntry
  failed : List FailedEntry
  total_documents : Nat
  total_chunks : Nat
deriving DecidableEq

/-- The per-file classification step of `process_multiple_documents`
(lines 612-629): exceptions and unsuccessful results go to `failed`,
successful results to `successful` with their chunk count added. -/
def record_result (acc : BatchReport) (fr : String × FileOutcome) : BatchReport :=
  match fr.2 with
  | .exn e => { acc with failed := acc.failed ++ [⟨fr.1, some e⟩] }
  | .res r =>
      if r.success then
        { acc with successful := acc.successful ++ [⟨fr.1, r.documents⟩],
                   total_chunks := acc.total_chunks + r.documents.length }
      else
        { acc with failed := acc.failed ++ [⟨fr.1, r.error⟩] }

/-- The batch loop of `process_multiple_documents` (lines 600-636): take
the next five files, classify their gathered outcomes, continue with the
rest.  The `fuel` argument bounds the number of iterations so the
recursion is structural; the loop performs at most `files.length`
iterations, so callers pass that.  (Memory cleanup between batches is an
external effect with no bearing on the report.) -/
def process_batches : Nat → List (String × FileOutcome) → BatchReport → BatchReport
  | _, [], acc => acc
  | 0, _ :: _, acc => acc
  | fuel + 1, f :: fs, acc =>
      process_batches fuel ((f :: fs).drop 5)
        (((f :: fs).take 5).foldl record_result acc)

/-- `DocumentProcessor.process_multiple_documents` (lines 584-643), as a
function of each file's gathered outcome: run the batch loop from the
empty report, then set `total_documents` to the number of successful
entries (line 638). -/
def process_multiple_documents (files : List (String × FileOutcome)) : BatchReport :=
  let r := process_batches files.length files ⟨[], [], 0, 0⟩
  { r with total_documents := r.successful.length }

/-! ## Periodic indexer (src/backend/services/periodic_indexer.py) -/

/-- A file in the watch directory as `PeriodicIndexer._get_file_hash`
observes it: its name, the `st_mtime` and `st_size` values `stat()` would
report (their rendered forms modelled by `toString`), and whether the
`stat()` call raises. -/
structure WatchedFile where
  name : String
  st_mtime : Nat
  st_size : Nat
  stat_raises : Bool
deriving DecidableEq

/-- The `hash_input` string `f"{file_path.name}_{stat.st_mtime}_{stat.st_size}"`
of `_get_file_hash` (line 175). -/
def hash_input (f : WatchedFile) : String :=
  f.name ++ "_" ++ toString f.st_mtime ++ "_" ++ toString f.st_size

/-- `PeriodicIndexer._get_file_hash` (lines 170-180): hash the name,
modification time and size; if `stat()` raises, fall back to hashing the
filename alone.  `md5` models `hashlib.md5(...).hexdigest()`. -/
def get_file_hash (md5 : String → String) (f : WatchedFile) : String :=
  if f.stat_raises then md5 f.name else md5 (hash_input f)

/-- The dedup filter of `PeriodicIndexer._scan_and_index` (line 114): a
candidate is new exactly when its hash is not in the processed set. -/
def is_new_file (md5 : String → String) (processed : List String)
    (f : WatchedFile) : Bool :=
  decide (get_file_hash md5 f ∉ processed)

/-- An awaited action of `PeriodicIndexer._indexing_loop`: the
`_scan_and_index()` call or the `asyncio.sleep(scan_interval)` call. -/
inductive LoopEvent where
  | scan
  | sleep_interval
deriving DecidableEq

/-- What one iteration of the indexing loop encounters: a normal pass, an
exception escaping into the loop's handler, or an
`asyncio.CancelledError` raised at one of the iteration's await points. -/
inductive IterOutcome where
  | ok
  | iter_error (e : String)
  | cancelled
deriving DecidableEq

/-- One iteration of `PeriodicIndexer._indexing_loop` (lines 88-98): scan,
then sleep for the scan interval.  An exception is logged and the handler
sleeps and continues; `CancelledError` breaks the loop (the partial events
of the interrupted iteration are not modelled).  The boolean says whether
the loop continues. -/
def indexing_iteration : IterOutcome → List LoopEvent × Bool
  | .ok => ([.scan, .sleep_interval], true)
  | .iter_error _ => ([.scan, .sleep_interval], true)
  | .cancelled => ([], false)

/-- `_indexing_loop` run against a stream of iteration outcomes, recording
awaited events until the stream ends or the loop breaks. -/
def indexing_loop : List IterOutcome → List LoopEvent
  | [] => []
  | o :: rest =>
      (indexing_iteration o).1 ++
        (if (indexing_iteration o).2 then indexing_loop rest else [])

/-- The persisted structure written by `_save_processed_files`
(lines 201-205): `{processed_files, last_updated, total_processed}`. -/
structure ProcessedDb where
  processed_files : List String
  last_updated : String
  total_processed : Nat
deriving DecidableEq

/-- A filesystem operation of the indexer.  `write_json p d` is
`open(p, 'w'); json.dump(d, f)` — an in-place overwrite of `p`;
`replace_file tmp dst` is the atomic-rename step of a
write-new-then-replace discipline (never produced by this code; present
so the discipline the spec describes can be stated); `delete_file` is
`file_path.unlink()`. -/
inductive FsOp where
  | write_json (path : String) (data : ProcessedDb)
  | replace_file (tmp dst : String)
  | delete_file (path : String)
deriving DecidableEq

/-- `PeriodicIndexer._save_processed_files` (lines 198-213): dump the
current in-memory set, with a timestamp and its count, directly into the
database file. -/
def save_processed_files (db_path : String) (processed : List String)
    (now : String) : List FsOp :=
  [.write_json db_path ⟨processed, now, processed.length⟩]

/-- Spec-side definition, following §4.1's words for comparison with
`save_processed_files`: a write-new-then-replace commit writes the new
snapshot to a distinct temporary path and then atomically replaces the
target, so a crash mid-write cannot touch the previous snapshot. -/
def write_new_then_replace (ops : List FsOp) (dst : String) : Prop :=
  ∃ tmp data, tmp ≠ dst ∧
    ops = [FsOp.write_json tmp data, FsOp.replace_file tmp dst]

/-- `set.add` on the duplicate-free-list model of a Python set. -/
def set_add (s : List String) (x : String) : List String :=
  if x ∈ s then s else s ++ [x]

/-- The mark-as-processed loop of `_process_new_files` (lines 137-138):
`for file_hash in file_hashes: self.processed_files.add(file_hash)`. -/
def add_all (s : List String) (xs : List String) : List String :=
  xs.foldl set_add s

/-- The dict returned by `HebrewRAGAgent.add_documents` (rag_agent.py
lines 81-111); the `total_documents` collection stat (external) is
omitted. -/
structure AddDocsResult where
  success : Bool
  documents_added : Nat
  error : Option String
deriving DecidableEq

/-- `HebrewRAGAgent.add_documents`: hand all chunks to the vector store
(`vector_add` models `vector_service.add_documents`, returning opaque ids
or raising); succeed with `len(documents)` unless the call raises. -/
def add_documents (vector_add : Except String (List String))
    (documents : List String) : AddDocsResult :=
  match vector_add with
  | .ok _ => ⟨true, documents.length, none⟩
  | .error e => ⟨false, 0, some e⟩

/-- The dict returned by `HebrewRAGAgent.process_and_add_files`
(rag_agent.py lines 113-157).  The early no-successes return carries no
`files_processed`/`files_failed`/`total_chunks`/`documents_added` keys;
those fields are 0 here and are never read on that path. -/
structure AddFilesResult where
  success : Bool
  files_processed : Nat
  files_failed : Nat
  total_chunks : Nat
  documents_added : Nat
  error : Option String
deriving DecidableEq

/-- `HebrewRAGAgent.process_and_add_files` (lines 113-157): process the
batch, bail out when nothing succeeded, otherwise pool every successful
file's chunks and hand them to the vector store; the returned `success`
is the vector-store add's `success`, even when some files failed. -/
def process_and_add_files (files : List (String × FileOutcome))
    (vector_add : Except String (List String)) : AddFilesResult :=
  let processing := process_multiple_documents files
  if processing.successful = [] then
    ⟨false, 0, 0, 0, 0, some "No documents were successfully processed"⟩
  else
    let all_documents := (processing.successful.map (fun s => s.documents)).flatten
    let add_result := add_documents vector_add all_documents
    ⟨add_result.success, processing.successful.length, processing.failed.length,
      all_documents.length, add_result.documents_added, add_result.error⟩

/-- `PeriodicIndexer._process_new_files` (lines 126-153), as a function of
the in-memory processed set and the batch of `(path, hash, outcome)`
triples.  Returns the new in-memory set and the filesystem operations
performed: on batch success every hash of the batch is marked processed,
the database is saved, and the source files are deleted
(`_cleanup_processed_files`); on batch failure nothing changes. -/
def process_new_files (processed : List String) (db_path now : String)
    (new_files : List (String × String × FileOutcome))
    (vector_add : Except String (List String)) : List String × List FsOp :=
  let result := process_and_add_files
    (new_files.map (fun nf => (nf.1, nf.2.2))) vector_add
  if result.success then
    let updated := add_all processed (new_files.map (fun nf => nf.2.1))
    (updated, save_processed_files db_path updated now
      ++ new_files.map (fun nf => FsOp.delete_file nf.1))
  else
    (processed, [])

/-! ## Helper lemmas -/

/-- The batch loop visits the files in input order, five at a time, so
with enough fuel it agrees with a flat left fold. -/
theorem process_batches_eq_foldl (fuel : Nat) (files : List (String × FileOutcome))
    (acc : BatchReport) (hfuel : files.length ≤ fuel) :
    process_batches fuel files acc = files.foldl record_result acc := by
  induction fuel generalizing files acc with
  | zero =>
      have : files = [] := List.eq_nil_of_length_eq_zero (Nat.le_zero.mp hfuel)
      subst this
      rfl
  | succ n ih =>
      cases files with
      | nil => rfl
      | cons f fs =>
          rw [process_batches, ih ((f :: fs).drop 5) _ ?_, ← List.foldl_append,
            List.take_append_drop]
          have := hfuel
          simp only [List.length_cons, List.length_drop] at *
          omega

/-- Folding the classifier appends one `successful` entry per valid file
and one `failed` entry per invalid file. -/
theorem foldl_record_result_counts (files : List (String × FileOutcome))
    (acc : BatchReport) :
    (files.foldl record_result acc).successful.length
        = acc.successful.length
          + (files.filter (fun fr => !fr.2.is_failure)).length ∧
    (files.foldl record_result acc).failed.length
        = acc.failed.length
          + (files.filter (fun fr => fr.2.is_failure)).length := by
  induction files generalizing acc with
  | nil => simp
  | cons a as ih =>
    obtain ⟨p, o⟩ := a
    cases o with
    | exn e =>
        have := ih { acc with failed := acc.failed ++ [⟨p, some e⟩] }
        simpa [record_result, FileOutcome.is_failure, Nat.add_assoc,
          Nat.add_comm 1] using this
    | res r =>
        by_cases hs : r.success
        · have := ih { acc with
            successful := acc.successful ++ [⟨p, r.documents⟩],
            total_chunks := acc.total_chunks + r.documents.length }
          simpa [record_result, FileOutcome.is_failure, hs, Nat.add_assoc,
            Nat.add_comm 1] using this
        · have := ih { acc with failed := acc.failed ++ [⟨p, r.error⟩] }
          simpa [record_result, FileOutcome.is_failure, hs, Nat.add_assoc,
            Nat.add_comm 1] using this

/-- The invalid and valid files of a list partition its length. -/
theorem filter_not_failure_length (files : List (String × FileOutcome)) :
    (files.filter (fun fr => !fr.2.is_failure)).length
      = files.length - (files.filter (fun fr => fr.2.is_failure)).length := by
  induction files with
  | nil => rfl
  | cons a as ih =>
    have hle := List.length_filter_le (fun fr => fr.2.is_failure) as
    by_cases h : a.2.is_failure <;> simp [h, ih] <;> omega

/-- Helper: the size gate of `process_document` fires for an existing
oversized file, before any extractor runs. -/
theorem process_document_too_large (max_mb : Nat) (splitter : String → List String)
    (fmt : ℚ → String) (f : FileInfo) (extraction : Except String ExtractionResult)
    (hdisk : f.on_disk = true)
    (hsize : file_size_mb f.size_bytes > (max_mb : ℚ)) :
    process_document max_mb splitter fmt f extraction =
      (⟨false, some ("File too large: " ++ fmt (file_size_mb f.size_bytes)
          ++ "MB (max: " ++ toString max_mb ++ "MB)"), []⟩, false) := by
  simp [process_document, hdisk, hsize]

/-- A loop over non-cancelled outcomes emits a scan followed by a sleep
for every outcome. -/
theorem indexing_loop_join : ∀ (outcomes : List IterOutcome),
    (∀ o ∈ outcomes, o ≠ IterOutcome.cancelled) →
    indexing_loop outcomes =
      (outcomes.map (fun _ => [LoopEvent.scan, LoopEvent.sleep_interval])).flatten
  | [], _ => rfl
  | o :: rest, h => by
      have hrest := indexing_loop_join rest
        (fun x hx => h x (List.mem_cons_of_mem o hx))
      cases o with
      | ok => simp [indexing_loop, indexing_iteration, hrest]
      | iter_error e => simp [indexing_loop, indexing_iteration, hrest]
      | cancelled => exact absurd rfl (h .cancelled (List.mem_cons_self _ _))

/-- Membership in the set-model insert. -/
theorem mem_set_add (s : List String) (x y : String) :
    y ∈ set_add s x ↔ y ∈ s ∨ y = x := by
  unfold set_add
  by_cases h : x ∈ s
  · rw [if_pos h]
    constructor
    · exact Or.inl
    · rintro (hy | rfl)
      exacts [hy, h]
  · rw [if_neg h]
    simp [List.mem_append]

/-- Membership after marking a whole batch of hashes. -/
theorem mem_add_all (xs : List String) (s : List String) (y : String) :
    y ∈ add_all s xs ↔ y ∈ s ∨ y ∈ xs := by
  induction xs generalizing s with
  | nil => simp [add_all]
  | cons a as ih =>
      show y ∈ add_all (set_add s a) as ↔ _
      rw [ih, mem_set_add]
      simp only [List.mem_cons]
      tauto

/-! ## Claims -/

/-- Claim C1: if the primary OCR engine throws while extracting from an
image and the fallback engine succeeds, `OCRService.extract_text_from_image`
returns a result with `method = "tesseract"` (the fallback engine's name)
and `success = true`; if both engines throw, it returns `success = false`
with an error message containing both underlying errors. -/
theorem ocr_fallback_chain (env : OCREnv) (task_type e₁ : String)
    (hav : env.dots_available = true)
    (hdots : env.dots_result = .error e₁) :
    (∀ t : String, env.tesseract_available = true → env.tesseract_result = .ok t →
      (extract_text_from_image env true task_type).method = "tesseract" ∧
      (extract_text_from_image env true task_type).success = true) ∧
    (∀ e₂ : String, env.tesseract_available = true → env.tesseract_result = .error e₂ →
      (extract_text_from_image env true task_type).success = false ∧
      ∃ pre mid : String, (extract_text_from_image env true task_type).error =
        some (pre ++ e₁ ++ mid ++ e₂)) := by
  constructor
  · intro t htav htess
    simp [extract_text_from_image, tesseractFallback, hav, hdots, htav, htess]
  · intro e₂ htav htess
    refine ⟨?_, "Both OCR methods failed. Dots: ", ", Tesseract: ", ?_⟩ <;>
      simp [extract_text_from_image, tesseractFallback, hav, hdots, htav, htess, pyOptionStr]

/-- Witness for C1 at a concrete environment: dots.ocr available but
throwing, Tesseract available; both the fallback-success and the
both-fail conclusions are checked concretely. -/
theorem ocr_fallback_chain_witness :
    ((extract_text_from_image ⟨true, .error "dots boom", true, .ok "hello"⟩
        true "full").method = "tesseract" ∧
      (extract_text_from_image ⟨true, .error "dots boom", true, .ok "hello"⟩
        true "full").success = true) ∧
    ((extract_text_from_image ⟨true, .error "dots boom", true, .error "tess boom"⟩
        true "full").success = false ∧
      ∃ pre mid : String,
        (extract_text_from_image ⟨true, .error "dots boom", true, .error "tess boom"⟩
          true "full").error = some (pre ++ "dots boom" ++ mid ++ "tess boom")) := by
  constructor
  · exact (ocr_fallback_chain ⟨true, .error "dots boom", true, .ok "hello"⟩
      "full" "dots boom" rfl rfl).1 "hello" rfl rfl
  · exact (ocr_fallback_chain ⟨true, .error "dots boom", true, .error "tess boom"⟩
      "full" "dots boom" rfl rfl).2 "tess boom" rfl rfl

/-- Claim C7: for a `full` or `layout_only` OCR task, if the primary
engine's output fails to parse as JSON, the result still carries the raw
text with `parsed = none` and `success = true`. -/
theorem dots_raw_text_on_parse_failure (parseJson : String → Option Json)
    (output_text task_type : String)
    (htask : task_type = "full" ∨ task_type = "layout_only")
    (hparse : parseJson output_text = none) :
    dotsParseOutput parseJson output_text task_type =
      ⟨output_text, none, task_type, true⟩ := by
  rcases htask with h | h <;> subst h <;> simp [dotsParseOutput, hparse]

/-- Witness for C7 at a concrete input where parsing fails. -/
theorem dots_raw_text_on_parse_failure_witness :
    dotsParseOutput (fun _ => none) "not json at all" "full" =
      ⟨"not json at all", none, "full", true⟩ :=
  dots_raw_text_on_parse_failure (fun _ => none) "not json at all" "full"
    (Or.inl rfl) rfl

/-- Counterexample to C6 as stated: it is not the case that the temporary
page image is removed regardless of outcome — when the OCR call on the
page throws, no `remove_temp` event occurs. -/
theorem pdf_temp_cleanup_counterexample :
    ¬ (∀ (page_num total_pages : Nat) (temp_path : String)
        (ocr : Except String DotsResult),
        FsEvent.remove_temp temp_path ∈
          (process_pdf_page page_num total_pages temp_path ocr).2) := by
  intro h
  have := h 0 1 "/tmp/dots_ocr_pdf_0_0.png" (.error "cuda out of memory")
  simp [process_pdf_page] at this

/-- Claim C6 (amended): the temporary page image is removed immediately
after the page's OCR call exactly when that call succeeds; when the OCR
call throws, the per-page handler records the error in the page result and
the temp file is not removed. -/
theorem pdf_temp_cleanup (page_num total_pages : Nat) (temp_path : String)
    (ocr : Except String DotsResult) :
    (FsEvent.remove_temp temp_path ∈
        (process_pdf_page page_num total_pages temp_path ocr).2 ↔
      ∃ r, ocr = .ok r) ∧
    (∀ e, ocr = .error e →
      (process_pdf_page page_num total_pages temp_path ocr).1.success = false ∧
      (process_pdf_page page_num total_pages temp_path ocr).1.error = some e) := by
  cases ocr with
  | ok r => simp [process_pdf_page]
  | error e => simp [process_pdf_page]

/-- Witness for C6 (amended) at concrete inputs: on a successful page the
temp file is removed; on a throwing page it is not, and the error is
recorded. -/
theorem pdf_temp_cleanup_witness :
    (FsEvent.remove_temp "/tmp/p0.png" ∈
        (process_pdf_page 0 2 "/tmp/p0.png"
          (.ok ⟨"page text", none, "full", true⟩)).2 ↔
      ∃ r, (Except.ok ⟨"page text", none, "full", true⟩ :
          Except String DotsResult) = .ok r) ∧
    ((process_pdf_page 1 2 "/tmp/p1.png"
        (.error "ocr failed" : Except String DotsResult)).1.success = false ∧
      (process_pdf_page 1 2 "/tmp/p1.png"
        (.error "ocr failed" : Except String DotsResult)).1.error =
          some "ocr failed") := by
  constructor
  · exact (pdf_temp_cleanup 0 2 "/tmp/p0.png"
      (.ok ⟨"page text", none, "full", true⟩)).1
  · exact (pdf_temp_cleanup 1 2 "/tmp/p1.png"
      (.error "ocr failed")).2 "ocr failed" rfl

/-- Claim C5: for an input list of `n` files of which `k` are invalid
(raise or fail processing), `process_multiple_documents` reports
`total_documents = n - k` and `len(failed) = k`, each per-file exception
appearing as a per-file failure entry rather than propagating. -/
theorem batch_report_counts (files : List (String × FileOutcome)) :
    (process_multiple_documents files).total_documents
        = files.length - (files.filter (fun fr => fr.2.is_failure)).length ∧
    (process_multiple_documents files).failed.length
        = (files.filter (fun fr => fr.2.is_failure)).length := by
  have hfold := foldl_record_result_counts files ⟨[], [], 0, 0⟩
  have hflat := process_batches_eq_foldl files.length files ⟨[], [], 0, 0⟩
    (Nat.le_refl _)
  constructor
  · show (process_batches files.length files ⟨[], [], 0, 0⟩).successful.length = _
    rw [hflat, hfold.1, filter_not_failure_length]
    simp
  · show (process_batches files.length files ⟨[], [], 0, 0⟩).failed.length = _
    rw [hflat, hfold.2]
    simp

/-- Claim C9: an existing file whose size exceeds the configured maximum
is rejected with a size-limit error naming both the actual and the
maximum size, and no extractor is invoked. -/
theorem oversized_file_rejected (max_mb : Nat) (splitter : String → List String)
    (fmt : ℚ → String) (f : FileInfo) (extraction : Except String ExtractionResult)
    (hdisk : f.on_disk = true)
    (hsize : file_size_mb f.size_bytes > (max_mb : ℚ)) :
    process_document max_mb splitter fmt f extraction =
      (⟨false, some ("File too large: " ++ fmt (file_size_mb f.size_bytes)
          ++ "MB (max: " ++ toString max_mb ++ "MB)"), []⟩, false) ∧
    ∃ pre mid post : String,
      (process_document max_mb splitter fmt f extraction).1.error =
        some (pre ++ fmt (file_size_mb f.size_bytes) ++ mid
          ++ toString max_mb ++ post) := by
  have hmain := process_document_too_large max_mb splitter fmt f extraction hdisk hsize
  exact ⟨hmain, "File too large: ", "MB (max: ", "MB)", by rw [hmain]⟩

/-- Witness for C9: a 200 MB file against the default 100 MB limit. -/
theorem oversized_file_rejected_witness :
    process_document 100 (fun _ => []) (fun q => toString q)
        ⟨"big.pdf", true, 209715200, ".pdf"⟩ (.ok ⟨true, [], none⟩) =
      (⟨false, some ("File too large: " ++ toString (file_size_mb 209715200)
          ++ "MB (max: " ++ toString (100 : Nat) ++ "MB)"), []⟩, false) ∧
    ∃ pre mid post : String,
      (process_document 100 (fun _ => []) (fun q => toString q)
          ⟨"big.pdf", true, 209715200, ".pdf"⟩ (.ok ⟨true, [], none⟩)).1.error =
        some (pre ++ toString (file_size_mb 209715200) ++ mid
          ++ toString (100 : Nat) ++ post) :=
  oversized_file_rejected 100 (fun _ => []) (fun q => toString q)
    ⟨"big.pdf", true, 209715200, ".pdf"⟩ (.ok ⟨true, [], none⟩) rfl
    (by norm_num [file_size_mb])

/-- Counterexample to C8 as stated: an existing file with an unsupported
extension need not produce an "unsupported file type" error — when it is
also oversized, the size gate fires first and the error is a size-limit
message instead. -/
theorem unsupported_gate_counterexample :
    get_file_type ".xyz" = "unknown" ∧
    ((process_document 100 (fun _ => []) (fun _ => "200.0")
        ⟨"big.xyz", true, 209715200, ".xyz"⟩ (.ok ⟨true, [], none⟩)).1.success
      = false) ∧
    (str_starts_with "Unsupported file type: "
        (((process_document 100 (fun _ => []) (fun _ => "200.0")
          ⟨"big.xyz", true, 209715200, ".xyz"⟩
          (.ok ⟨true, [], none⟩)).1.error).getD "") = false) := by
  have hgate : file_size_mb 209715200 > ((100 : Nat) : ℚ) := by
    norm_num [file_size_mb]
  have h1 := process_document_too_large 100 (fun _ => []) (fun _ => "200.0")
      ⟨"big.xyz", true, 209715200, ".xyz"⟩ (.ok ⟨true, [], none⟩) rfl hgate
  refine ⟨by decide, ?_, ?_⟩ <;> rw [h1] <;> decide

/-- Claim C8 (amended): an existing file within the size limit whose
extension is not in the supported mapping is rejected with an
"unsupported file type" error and no extractor is invoked.  (As stated
the claim is false: the size gate precedes the type gate, so an
oversized unsupported file gets a size-limit error instead.) -/
theorem unsupported_file_rejected (max_mb : Nat) (splitter : String → List String)
    (fmt : ℚ → String) (f : FileInfo) (extraction : Except String ExtractionResult)
    (hdisk : f.on_disk = true)
    (hsize : ¬ file_size_mb f.size_bytes > (max_mb : ℚ))
    (htype : get_file_type f.suffix = "unknown") :
    process_document max_mb splitter fmt f extraction =
      (⟨false, some ("Unsupported file type: " ++ f.suffix), []⟩, false) := by
  simp [process_document, hdisk, hsize, htype]

/-- Witness for C8 (amended): a small `.xyz` file is rejected as
unsupported with no extractor call. -/
theorem unsupported_file_rejected_witness :
    process_document 100 (fun _ => []) (fun q => toString q)
        ⟨"note.xyz", true, 1024, ".xyz"⟩ (.ok ⟨true, [], none⟩) =
      (⟨false, some ("Unsupported file type: " ++ ".xyz"), []⟩, false) :=
  unsupported_file_rejected 100 (fun _ => []) (fun q => toString q)
    ⟨"note.xyz", true, 1024, ".xyz"⟩ (.ok ⟨true, [], none⟩) rfl
    (by norm_num [file_size_mb]) (by decide)

/-- Counterexample to C3 as stated: an iteration of the indexing loop does
not first sleep and then scan — a normal iteration's awaited events are a
scan followed by a sleep. -/
theorem loop_order_counterexample :
    ¬ (∀ o : IterOutcome, o ≠ IterOutcome.cancelled →
        (indexing_iteration o).1 = [LoopEvent.sleep_interval, LoopEvent.scan]) := by
  intro h
  exact absurd (h .ok (by decide)) (by decide)

/-- Claim C3 (amended): while running, every iteration of the indexing
loop first scans and then sleeps for the scan interval; an error in an
iteration is logged and does not stop the loop, which continues until an
explicit cancellation. -/
theorem indexing_loop_scan_then_sleep (outcomes : List IterOutcome)
    (h : ∀ o ∈ outcomes, o ≠ IterOutcome.cancelled) :
    (∀ o ∈ outcomes,
      indexing_iteration o = ([LoopEvent.scan, LoopEvent.sleep_interval], true)) ∧
    indexing_loop outcomes =
      (outcomes.map (fun _ => [LoopEvent.scan, LoopEvent.sleep_interval])).flatten := by
  refine ⟨?_, indexing_loop_join outcomes h⟩
  intro o ho
  cases o with
  | ok => rfl
  | iter_error e => rfl
  | cancelled => exact absurd rfl (h _ ho)

/-- Witness for C3 (amended): a run of three iterations, the middle one
erroring, still scans then sleeps three times. -/
theorem indexing_loop_scan_then_sleep_witness :
    (∀ o ∈ [IterOutcome.ok, IterOutcome.iter_error "directory unreadable",
        IterOutcome.ok],
      indexing_iteration o = ([LoopEvent.scan, LoopEvent.sleep_interval], true)) ∧
    indexing_loop [IterOutcome.ok, IterOutcome.iter_error "directory unreadable",
        IterOutcome.ok] =
      (([IterOutcome.ok, IterOutcome.iter_error "directory unreadable",
          IterOutcome.ok]).map
        (fun _ => [LoopEvent.scan, LoopEvent.sleep_interval])).flatten :=
  indexing_loop_scan_then_sleep
    [IterOutcome.ok, IterOutcome.iter_error "directory unreadable", IterOutcome.ok]
    (by decide)

/-- Claim C10: when `stat()` raises during fingerprint computation, the
fingerprint degrades to a hash of the filename alone; it is then
independent of modification time and size, so a later content or mtime
change of such a file does not make the scan treat it as new once its
name-hash is in the processed set. -/
theorem stat_failure_fingerprint (md5 : String → String) (f f' : WatchedFile)
    (hname : f.name = f'.name)
    (hf : f.stat_raises = true) (hf' : f'.stat_raises = true) :
    get_file_hash md5 f = md5 f.name ∧
    get_file_hash md5 f' = get_file_hash md5 f ∧
    ∀ processed : List String,
      get_file_hash md5 f ∈ processed →
      is_new_file md5 processed f' = false := by
  have h1 : get_file_hash md5 f = md5 f.name := by simp [get_file_hash, hf]
  have h2 : get_file_hash md5 f' = md5 f'.name := by simp [get_file_hash, hf']
  have h21 : get_file_hash md5 f' = get_file_hash md5 f := by
    rw [h1, h2, hname]
  refine ⟨h1, h21, ?_⟩
  intro processed hmem
  rw [is_new_file, h21]
  simpa using hmem

/-- Witness for C10: a file whose `stat()` keeps raising has the same
fingerprint before and after its mtime and size change, and is skipped by
the dedup filter once processed. -/
theorem stat_failure_fingerprint_witness :
    get_file_hash (fun s => s) ⟨"a.txt", 1, 10, true⟩ = "a.txt" ∧
    get_file_hash (fun s => s) ⟨"a.txt", 2, 999, true⟩ =
      get_file_hash (fun s => s) ⟨"a.txt", 1, 10, true⟩ ∧
    is_new_file (fun s => s) ["a.txt"] ⟨"a.txt", 2, 999, true⟩ = false := by
  have h := stat_failure_fingerprint (fun s => s) ⟨"a.txt", 1, 10, true⟩
    ⟨"a.txt", 2, 999, true⟩ rfl rfl rfl
  exact ⟨h.1, h.2.1, h.2.2 ["a.txt"] (by decide)⟩

/-- Counterexample to C4 as stated: `_save_processed_files` does not
follow a write-new-then-replace discipline — its only operation is a
direct overwrite of the database file itself. -/
theorem fingerprint_store_counterexample :
    ¬ write_new_then_replace
        (save_processed_files "./storage/processed_files.json" ["h1"]
          "2026-10-12T00:00:00")
        "./storage/processed_files.json" := by
  rintro ⟨tmp, data, hne, heq⟩
  simp [save_processed_files] at heq

/-- Claim C4 (amended): saving after a batch writes the union of the
previous in-memory set and the batch's fingerprints, together with a
timestamp and the count, but by a single direct overwrite of the database
file — not by a write-new-then-replace discipline, so a crash mid-write
can corrupt the previous snapshot. -/
theorem save_processed_files_direct_write (db_path now : String)
    (processed fps : List String) :
    save_processed_files db_path (add_all processed fps) now =
      [FsOp.write_json db_path
        ⟨add_all processed fps, now, (add_all processed fps).length⟩] ∧
    (∀ x, x ∈ add_all processed fps ↔ x ∈ processed ∨ x ∈ fps) ∧
    ¬ write_new_then_replace
        (save_processed_files db_path (add_all processed fps) now) db_path := by
  refine ⟨rfl, fun x => mem_add_all fps processed x, ?_⟩
  rintro ⟨tmp, data, hne, heq⟩
  simp [save_processed_files] at heq

/-- Counterexample to C2 as stated: a batch where `a.txt` succeeds and
`b.txt` fails still succeeds as a whole, and the fingerprint of `b.txt` —
a file whose own processing failed — is committed to the processed set. -/
theorem processed_set_counterexample :
    ("hb" ∈ (process_new_files [] "processed_files.json" "2026-10-12T00:00:00"
        [("a.txt", "ha", .res ⟨true, none, ["chunk a"]⟩),
         ("b.txt", "hb", .res ⟨false, some "boom", []⟩)]
        (.ok ["id0"])).1) ∧
    (FileOutcome.res ⟨false, some "boom", []⟩).is_failure = true := by
  decide

/-- Claim C2 (amended): fingerprints are committed per batch, not per
file: when the batch result fails, the processed set is unchanged and
nothing is written; when the batch result succeeds (at least one file
processed and the vector-store add succeeded), every fingerprint of the
batch is added — including those of files whose own processing failed. -/
theorem processed_set_batch_commit (processed : List String) (db_path now : String)
    (new_files : List (String × String × FileOutcome))
    (vector_add : Except String (List String)) :
    ((process_and_add_files (new_files.map (fun nf => (nf.1, nf.2.2)))
        vector_add).success = false →
      process_new_files processed db_path now new_files vector_add =
        (processed, [])) ∧
    ((process_and_add_files (new_files.map (fun nf => (nf.1, nf.2.2)))
        vector_add).success = true →
      ∀ x, x ∈ (process_new_files processed db_path now new_files vector_add).1 ↔
        x ∈ processed ∨ ∃ nf ∈ new_files, nf.2.1 = x) := by
  constructor
  · intro hf
    simp [process_new_files, hf]
  · intro ht x
    simp only [process_new_files, ht, if_true]
    rw [mem_add_all]
    simp [List.mem_map]

/-- Witness for C2 (amended) at concrete batches: a failing batch leaves
the set and the disk untouched; a succeeding batch adds its fingerprint
on top of the existing set. -/
theorem processed_set_batch_commit_witness :
    (process_new_files ["old"] "db.json" "t0"
        [("b.txt", "hb", .res ⟨false, some "boom", []⟩)] (.ok []) =
      (["old"], [])) ∧
    (∀ x, x ∈ (process_new_files ["old"] "db.json" "t0"
        [("a.txt", "ha", .res ⟨true, none, ["chunk a"]⟩)] (.ok ["id0"])).1 ↔
      x ∈ ["old"] ∨ ∃ nf ∈ [("a.txt", "ha",
        FileOutcome.res ⟨true, none, ["chunk a"]⟩)], nf.2.1 = x) := by
  constructor
  · exact (processed_set_batch_commit ["old"] "db.json" "t0"
      [("b.txt", "hb", .res ⟨false, some "boom", []⟩)] (.ok [])).1 (by decide)
  · exact (processed_set_batch_commit ["old"] "db.json" "t0"
      [("a.txt", "ha", .res ⟨true, none, ["chunk a"]⟩)] (.ok ["id0"])).2 (by decide)

end Merag
